import Mathlib

/-!
Verification of the situation/NAF decision rule of `src/main.py`
(`compute_student_situation`, lines 134–188).

The source takes integer arguments (abscences, three test scores, total
lecture count) and computes `average = (p1 + p2 + p3) / 3 / 10` with real
division, then classifies by a priority-ordered guard chain.  On integer
inputs every comparison and ceiling in the source lands far from any
floating-point rounding boundary (the boundaries 5 and 7 correspond to
score sums 150 and 210, whose quotients are exactly representable), so the
arithmetic is embedded exactly over `ℚ`.
-/

namespace Desafio

/-- The four student situations of `StudentSituation` in `src/main.py`
(lines 124–131). -/
inductive StudentSituation
  | reprovadoPorNota
  | reprovadoPorFalta
  | exameFinal
  | aprovado
deriving DecidableEq, Repr

open StudentSituation

/-- The score average of `src/main.py` line 174:
`average = (p1 + p2 + p3) / 3 / 10`, exact division in `ℚ`. -/
def average (p1 p2 p3 : ℤ) : ℚ :=
  ((p1 : ℚ) + (p2 : ℚ) + (p3 : ℚ)) / 3 / 10

/-- Embedding of `compute_student_situation` (`src/main.py` lines 134–188):
the absence guard first, then the `average`-based classification; the NAF
is `⌈10 - average⌉` on the final-exam branch and the initial `0` elsewhere. -/
def compute_student_situation (abscences p1 p2 p3 total_lectures : ℤ) :
    StudentSituation × ℤ :=
  if (abscences : ℚ) > (total_lectures : ℚ) / 4 then
    (reprovadoPorFalta, 0)
  else if average p1 p2 p3 < 5 then
    (reprovadoPorNota, 0)
  else if 5 ≤ average p1 p2 p3 ∧ average p1 p2 p3 < 7 then
    (exameFinal, ⌈(10 : ℚ) - average p1 p2 p3⌉)
  else
    (aprovado, 0)

/-- The score-only classification chain of `src/main.py` lines 180–186
(the `elif` chain reached when the absence guard is false), split out so
that fall-through behaviour can be stated. -/
def score_situation (p1 p2 p3 : ℤ) : StudentSituation × ℤ :=
  if average p1 p2 p3 < 5 then
    (reprovadoPorNota, 0)
  else if 5 ≤ average p1 p2 p3 ∧ average p1 p2 p3 < 7 then
    (exameFinal, ⌈(10 : ℚ) - average p1 p2 p3⌉)
  else
    (aprovado, 0)

/-! ### Helper lemmas -/

lemma compute_of_absent (a p1 p2 p3 t : ℤ) (h : (a : ℚ) > (t : ℚ) / 4) :
    compute_student_situation a p1 p2 p3 t = (reprovadoPorFalta, 0) := by
  unfold compute_student_situation
  rw [if_pos h]

lemma compute_of_not_absent (a p1 p2 p3 t : ℤ) (h : ¬ ((a : ℚ) > (t : ℚ) / 4)) :
    compute_student_situation a p1 p2 p3 t = score_situation p1 p2 p3 := by
  unfold compute_student_situation score_situation
  rw [if_neg h]

lemma score_of_lt5 (p1 p2 p3 : ℤ) (h : average p1 p2 p3 < 5) :
    score_situation p1 p2 p3 = (reprovadoPorNota, 0) := by
  unfold score_situation
  rw [if_pos h]

lemma score_of_mid (p1 p2 p3 : ℤ) (h5 : 5 ≤ average p1 p2 p3)
    (h7 : average p1 p2 p3 < 7) :
    score_situation p1 p2 p3 = (exameFinal, ⌈(10 : ℚ) - average p1 p2 p3⌉) := by
  unfold score_situation
  rw [if_neg (not_lt.mpr h5), if_pos ⟨h5, h7⟩]

lemma score_of_ge7 (p1 p2 p3 : ℤ) (h : 7 ≤ average p1 p2 p3) :
    score_situation p1 p2 p3 = (aprovado, 0) := by
  unfold score_situation
  rw [if_neg (not_lt.mpr (by linarith)), if_neg (by rintro ⟨-, h7⟩; linarith)]

lemma score_fst_ne_falta (p1 p2 p3 : ℤ) :
    (score_situation p1 p2 p3).1 ≠ reprovadoPorFalta := by
  unfold score_situation
  split_ifs <;> simp

lemma compute_congr_average (a t p1 p2 p3 q1 q2 q3 : ℤ)
    (h : average p1 p2 p3 = average q1 q2 q3) :
    compute_student_situation a p1 p2 p3 t =
      compute_student_situation a q1 q2 q3 t := by
  unfold compute_student_situation
  rw [h]

/-! ### Claim theorems -/

/-- C1: for every absences ≥ 0, scores in [0,100] and total_lectures > 0,
`compute_student_situation` returns one of the four situations together
with a NAF that is exactly 0 whenever the situation is not the final exam;
as a Lean function it is total and deterministic on this domain. -/
theorem C1_totality (a p1 p2 p3 t : ℤ) (ha : 0 ≤ a)
    (hp1l : 0 ≤ p1) (hp1u : p1 ≤ 100) (hp2l : 0 ≤ p2) (hp2u : p2 ≤ 100)
    (hp3l : 0 ≤ p3) (hp3u : p3 ≤ 100) (ht : 0 < t) :
    ((compute_student_situation a p1 p2 p3 t).1 = reprovadoPorNota ∨
      (compute_student_situation a p1 p2 p3 t).1 = reprovadoPorFalta ∨
      (compute_student_situation a p1 p2 p3 t).1 = exameFinal ∨
      (compute_student_situation a p1 p2 p3 t).1 = aprovado) ∧
    ((compute_student_situation a p1 p2 p3 t).1 ≠ exameFinal →
      (compute_student_situation a p1 p2 p3 t).2 = 0) := by
  constructor
  · cases h : (compute_student_situation a p1 p2 p3 t).1 <;> simp
  · unfold compute_student_situation
    split_ifs <;> simp

/-- Witness for C1 at absences = 0, scores = 50, total_lectures = 100. -/
theorem C1_totality_witness :
    ((0 : ℤ) ≤ 0 ∧ (0 : ℤ) ≤ 50 ∧ (50 : ℤ) ≤ 100 ∧ (0 : ℤ) < 100) ∧
    (((compute_student_situation 0 50 50 50 100).1 = reprovadoPorNota ∨
        (compute_student_situation 0 50 50 50 100).1 = reprovadoPorFalta ∨
        (compute_student_situation 0 50 50 50 100).1 = exameFinal ∨
        (compute_student_situation 0 50 50 50 100).1 = aprovado) ∧
      ((compute_student_situation 0 50 50 50 100).1 ≠ exameFinal →
        (compute_student_situation 0 50 50 50 100).2 = 0)) :=
  ⟨by norm_num,
    C1_totality 0 50 50 50 100 le_rfl (by norm_num) (by norm_num) (by norm_num)
      (by norm_num) (by norm_num) (by norm_num) (by norm_num)⟩

/-- C2: whenever absences > total_lectures / 4 (exact division), the result
is (failed by absence, 0) regardless of the scores. -/
theorem C2_absence_precedence (a p1 p2 p3 t : ℤ)
    (h : (a : ℚ) > (t : ℚ) / 4) :
    compute_student_situation a p1 p2 p3 t = (reprovadoPorFalta, 0) :=
  compute_of_absent a p1 p2 p3 t h

/-- Witness for C2: absences = 30, total_lectures = 100, perfect scores. -/
theorem C2_absence_precedence_witness :
    ((30 : ℤ) : ℚ) > ((100 : ℤ) : ℚ) / 4 ∧
    compute_student_situation 30 100 100 100 100 = (reprovadoPorFalta, 0) :=
  ⟨by norm_num, C2_absence_precedence 30 100 100 100 100 (by norm_num)⟩

/-- C3: when the absence guard does not fire and 5 ≤ average < 7, the
result is the final exam with NAF = ⌈10 - average⌉. -/
theorem C3_final_exam_naf (a p1 p2 p3 t : ℤ)
    (habs : ¬ ((a : ℚ) > (t : ℚ) / 4))
    (h5 : 5 ≤ average p1 p2 p3) (h7 : average p1 p2 p3 < 7) :
    compute_student_situation a p1 p2 p3 t =
      (exameFinal, ⌈(10 : ℚ) - average p1 p2 p3⌉) := by
  rw [compute_of_not_absent a p1 p2 p3 t habs, score_of_mid p1 p2 p3 h5 h7]

/-- Witness for C3: absences = 0, total_lectures = 100, scores 60/70/70
give average 20/3 and NAF = ⌈10 - 20/3⌉ = 4. -/
theorem C3_final_exam_naf_witness :
    (¬ (((0 : ℤ) : ℚ) > ((100 : ℤ) : ℚ) / 4)) ∧
    5 ≤ average 60 70 70 ∧ average 60 70 70 < 7 ∧
    compute_student_situation 0 60 70 70 100 = (exameFinal, 4) := by
  have habs : ¬ (((0 : ℤ) : ℚ) > ((100 : ℤ) : ℚ) / 4) := by norm_num
  have h5 : 5 ≤ average 60 70 70 := by norm_num [average]
  have h7 : average 60 70 70 < 7 := by norm_num [average]
  refine ⟨habs, h5, h7, ?_⟩
  rw [C3_final_exam_naf 0 60 70 70 100 habs h5 h7,
    show (10 : ℚ) - average 60 70 70 = 10 / 3 by norm_num [average]]
  norm_num [Int.ceil_eq_iff]

/-- C4: when the absence guard does not fire and the average is exactly 5,
the result is the final exam (inclusive lower bound) with NAF = 5. -/
theorem C4_boundary_five (a p1 p2 p3 t : ℤ)
    (habs : ¬ ((a : ℚ) > (t : ℚ) / 4)) (havg : average p1 p2 p3 = 5) :
    compute_student_situation a p1 p2 p3 t = (exameFinal, 5) := by
  rw [compute_of_not_absent a p1 p2 p3 t habs,
    score_of_mid p1 p2 p3 (le_of_eq havg.symm) (by rw [havg]; norm_num), havg,
    show (10 : ℚ) - 5 = ((5 : ℤ) : ℚ) by norm_num, Int.ceil_intCast]

/-- Witness for C4: absences = 0, total_lectures = 100, all scores 50. -/
theorem C4_boundary_five_witness :
    (¬ (((0 : ℤ) : ℚ) > ((100 : ℤ) : ℚ) / 4)) ∧ average 50 50 50 = 5 ∧
    compute_student_situation 0 50 50 50 100 = (exameFinal, 5) := by
  have habs : ¬ (((0 : ℤ) : ℚ) > ((100 : ℤ) : ℚ) / 4) := by norm_num
  have havg : average 50 50 50 = 5 := by norm_num [average]
  exact ⟨habs, havg, C4_boundary_five 0 50 50 50 100 habs havg⟩

/-- C5: when the absence guard does not fire and the average is 7 or more,
the result is (approved, 0): the final-exam band excludes 7. -/
theorem C5_boundary_seven (a p1 p2 p3 t : ℤ)
    (habs : ¬ ((a : ℚ) > (t : ℚ) / 4)) (havg : 7 ≤ average p1 p2 p3) :
    compute_student_situation a p1 p2 p3 t = (aprovado, 0) := by
  rw [compute_of_not_absent a p1 p2 p3 t habs, score_of_ge7 p1 p2 p3 havg]

/-- Witness for C5: absences = 0, total_lectures = 100, all scores 70
give average exactly 7. -/
theorem C5_boundary_seven_witness :
    (¬ (((0 : ℤ) : ℚ) > ((100 : ℤ) : ℚ) / 4)) ∧ 7 ≤ average 70 70 70 ∧
    compute_student_situation 0 70 70 70 100 = (aprovado, 0) := by
  have habs : ¬ (((0 : ℤ) : ℚ) > ((100 : ℤ) : ℚ) / 4) := by norm_num
  have havg : (7 : ℚ) ≤ average 70 70 70 := by norm_num [average]
  exact ⟨habs, havg, C5_boundary_seven 0 70 70 70 100 habs havg⟩

/-- C6: when absences equal total_lectures / 4 exactly, the absence guard
(strict >) does not fire: the result is the score-only classification and
is never failed-by-absence. -/
theorem C6_absence_strict_boundary (a p1 p2 p3 t : ℤ)
    (h : (a : ℚ) = (t : ℚ) / 4) :
    compute_student_situation a p1 p2 p3 t = score_situation p1 p2 p3 ∧
    (compute_student_situation a p1 p2 p3 t).1 ≠ reprovadoPorFalta := by
  have habs : ¬ ((a : ℚ) > (t : ℚ) / 4) := by rw [h]; exact lt_irrefl _
  refine ⟨compute_of_not_absent a p1 p2 p3 t habs, ?_⟩
  rw [compute_of_not_absent a p1 p2 p3 t habs]
  exact score_fst_ne_falta p1 p2 p3

/-- Witness for C6: absences = 25, total_lectures = 100, perfect scores. -/
theorem C6_absence_strict_boundary_witness :
    ((25 : ℤ) : ℚ) = ((100 : ℤ) : ℚ) / 4 ∧
    (compute_student_situation 25 100 100 100 100 =
        score_situation 100 100 100 ∧
      (compute_student_situation 25 100 100 100 100).1 ≠ reprovadoPorFalta) :=
  ⟨by norm_num,
    C6_absence_strict_boundary 25 100 100 100 100 (by norm_num)⟩

/-- C7: when the absence guard does not fire and the average is below 5,
the result is (failed by score, 0). -/
theorem C7_failed_by_score (a p1 p2 p3 t : ℤ)
    (habs : ¬ ((a : ℚ) > (t : ℚ) / 4)) (havg : average p1 p2 p3 < 5) :
    compute_student_situation a p1 p2 p3 t = (reprovadoPorNota, 0) := by
  rw [compute_of_not_absent a p1 p2 p3 t habs, score_of_lt5 p1 p2 p3 havg]

/-- Witness for C7: absences = 0, total_lectures = 100, all scores 40. -/
theorem C7_failed_by_score_witness :
    (¬ (((0 : ℤ) : ℚ) > ((100 : ℤ) : ℚ) / 4)) ∧ average 40 40 40 < 5 ∧
    compute_student_situation 0 40 40 40 100 = (reprovadoPorNota, 0) := by
  have habs : ¬ (((0 : ℤ) : ℚ) > ((100 : ℤ) : ℚ) / 4) := by norm_num
  have havg : average 40 40 40 < 5 := by norm_num [average]
  exact ⟨habs, havg, C7_failed_by_score 0 40 40 40 100 habs havg⟩

/-- C8: with total_lectures = 0 the threshold degenerates to 0: any
positive absence count is failed by absence, and with zero absences the
result is the score-only classification. -/
theorem C8_zero_total_lectures (a p1 p2 p3 : ℤ) :
    (0 < a → compute_student_situation a p1 p2 p3 0 = (reprovadoPorFalta, 0)) ∧
    (a = 0 → compute_student_situation a p1 p2 p3 0 = score_situation p1 p2 p3) := by
  constructor
  · intro ha
    apply compute_of_absent
    have : (0 : ℚ) < (a : ℚ) := by exact_mod_cast ha
    push_cast
    linarith
  · intro ha
    apply compute_of_not_absent
    rw [ha]
    norm_num

/-- Witness for C8 at absences = 1 (and separately absences = 0). -/
theorem C8_zero_total_lectures_witness :
    ((0 : ℤ) < 1 ∧
      compute_student_situation 1 100 100 100 0 = (reprovadoPorFalta, 0)) ∧
    ((0 : ℤ) = 0 ∧
      compute_student_situation 0 40 40 40 0 = score_situation 40 40 40) :=
  ⟨⟨by norm_num, (C8_zero_total_lectures 1 100 100 100).1 (by norm_num)⟩,
    ⟨rfl, (C8_zero_total_lectures 0 40 40 40).2 rfl⟩⟩

/-- C9: whenever the computed situation is the final exam, the returned
NAF equals 4 or 5 (in particular it is strictly positive). -/
theorem C9_naf_range (a p1 p2 p3 t : ℤ)
    (h : (compute_student_situation a p1 p2 p3 t).1 = exameFinal) :
    (compute_student_situation a p1 p2 p3 t).2 = 4 ∨
    (compute_student_situation a p1 p2 p3 t).2 = 5 := by
  unfold compute_student_situation at h ⊢
  split_ifs at h ⊢ with h1 h2 h3
  have hle : ⌈(10 : ℚ) - average p1 p2 p3⌉ ≤ 5 :=
    Int.ceil_le.mpr (by push_cast; linarith [h3.1])
  have hgt : (3 : ℤ) < ⌈(10 : ℚ) - average p1 p2 p3⌉ :=
    Int.lt_ceil.mpr (by push_cast; linarith [h3.2])
  change ⌈(10 : ℚ) - average p1 p2 p3⌉ = 4 ∨
    ⌈(10 : ℚ) - average p1 p2 p3⌉ = 5
  omega

/-- Witness for C9 at absences = 0, scores 60/70/70, total_lectures = 100. -/
theorem C9_naf_range_witness :
    (compute_student_situation 0 60 70 70 100).1 = exameFinal ∧
    ((compute_student_situation 0 60 70 70 100).2 = 4 ∨
      (compute_student_situation 0 60 70 70 100).2 = 5) := by
  have h : compute_student_situation 0 60 70 70 100 =
      (exameFinal, ⌈(10 : ℚ) - average 60 70 70⌉) := by
    rw [compute_of_not_absent 0 60 70 70 100 (by norm_num),
      score_of_mid 60 70 70 (by norm_num [average]) (by norm_num [average])]
  have h1 : (compute_student_situation 0 60 70 70 100).1 = exameFinal := by
    rw [h]
  exact ⟨h1, C9_naf_range 0 60 70 70 100 h1⟩

/-- C10: the result is invariant under every permutation of the three
scores, because they enter only through their sum in the average. -/
theorem C10_score_symmetry (a p1 p2 p3 t : ℤ) :
    compute_student_situation a p1 p2 p3 t =
        compute_student_situation a p1 p3 p2 t ∧
    compute_student_situation a p1 p2 p3 t =
        compute_student_situation a p2 p1 p3 t ∧
    compute_student_situation a p1 p2 p3 t =
        compute_student_situation a p2 p3 p1 t ∧
    compute_student_situation a p1 p2 p3 t =
        compute_student_situation a p3 p1 p2 t ∧
    compute_student_situation a p1 p2 p3 t =
        compute_student_situation a p3 p2 p1 t := by
  refine ⟨?_, ?_, ?_, ?_, ?_⟩ <;>
    exact compute_congr_average a t p1 p2 p3 _ _ _ (by unfold average; ring)

end Desafio
